import Mathlib

/-!
Shallow embedding of the import/export core of the Django-Fitness-App
repository (src/fitness_tracker/data_utils.py, models.py, signals.py).

Conventions:
* Python strings are Lean `String`; the string operations the source uses
  (`strip`, `split`, `startswith`, slicing) are implemented below by
  structural recursion on the character list so that concrete runs reduce
  in the kernel.
* Python `int(...)` / `float(...)` / `datetime.strptime(..., '%Y-%m-%d')`
  become `pyInt?` / `pyFloat?` / `parseDate?` returning `Option`;
  `None` corresponds to the `ValueError` these calls raise.
* Floats only ever hold decimal literals here, so they are embedded as an
  un-normalised fraction `Flt` (numerator / 10^k), which the decimal
  parser and the JSON codec produce exactly.
* The relational store (Django ORM) is an explicit `Store` value; the
  `post_save` signal `auto_calculate_calories` (signals.py) is applied at
  every workout create/save, exactly as Django fires it.
-/

/-- Characters Python's `str.strip()` removes (the ones that can occur in
these text payloads). -/
def isPySpace (c : Char) : Bool :=
  c = ' ' || c = '\t' || c = '\n' || c = '\r'

def dropLeading : List Char → List Char
  | [] => []
  | c :: cs => if isPySpace c then dropLeading cs else c :: cs

/-- `str.strip()` on a character list. -/
def trimChars (l : List Char) : List Char :=
  (dropLeading (dropLeading l.reverse).reverse)

/-- `str.strip()`. -/
def pyStrip (s : String) : String :=
  String.mk (trimChars s.toList)

/-- `str.split(sep)` for a one-character separator, on character lists:
returns the chunks between occurrences of `sep` (Python semantics: no
collapsing, empty chunks kept). -/
def splitChars (sep : Char) : List Char → List (List Char)
  | [] => [[]]
  | c :: cs =>
    let rest := splitChars sep cs
    if c = sep then [] :: rest
    else
      match rest with
      | [] => [[c]]
      | r :: rs => (c :: r) :: rs

/-- `str.split(sep)` for a one-character separator. -/
def pySplit (s : String) (sep : Char) : List String :=
  (splitChars sep s.toList).map String.mk

def isPrefixOfChars : List Char → List Char → Bool
  | [], _ => true
  | _ :: _, [] => false
  | p :: ps, c :: cs => p = c && isPrefixOfChars ps cs

/-- `str.startswith(p)`. -/
def pyStartsWith (s p : String) : Bool :=
  isPrefixOfChars p.toList s.toList

/-- `s[n:]` (slice from index `n`). -/
def pyDrop (s : String) (n : Nat) : String :=
  String.mk (s.toList.drop n)

def digitsVal : List Char → Option Nat
  | [] => none
  | l => go l 0
where
  go : List Char → Nat → Option Nat
    | [], acc => some acc
    | c :: cs, acc =>
      if c.isDigit then go cs (acc * 10 + (c.toNat - 48)) else none

/-- Python `int(s)`: optional surrounding whitespace, optional sign,
then a non-empty digit string; anything else raises `ValueError`
(embedded as `none`). -/
def pyInt? (s : String) : Option Int :=
  match trimChars s.toList with
  | [] => none
  | '-' :: ds => (digitsVal ds).map (fun n => -(n : Int))
  | '+' :: ds => (digitsVal ds).map (fun n => (n : Int))
  | ds => (digitsVal ds).map (fun n => (n : Int))

/-- Decimal fraction: `num / 10 ^ exp10`, kept un-normalised.  This is how
the embedding represents the Python floats of this code base (all of which
arise from decimal literals, so the representation is exact). -/
structure Flt where
  num : Int
  exp10 : Nat
deriving DecidableEq

def Flt.ofInt (n : Int) : Flt := ⟨n, 0⟩

/-- Sign of the represented rational: `weight > 0` in the source becomes
`W.isPos` here. -/
def Flt.isPos (f : Flt) : Bool := 0 < f.num

def fracVal : List Char → Option (Nat × Nat)
  | [] => none
  | l => go l 0 0
where
  go : List Char → Nat → Nat → Option (Nat × Nat)
    | [], acc, k => some (acc, k)
    | c :: cs, acc, k =>
      if c.isDigit then go cs (acc * 10 + (c.toNat - 48)) (k + 1) else none

def pyFloatCore : List Char → Option Flt
  | ds =>
    match splitChars '.' ds with
    | [ip] => (digitsVal ip).map (fun n => ⟨(n : Int), 0⟩)
    | [[], fp] => (fracVal fp).map (fun p => ⟨(p.1 : Int), p.2⟩)
    | [ip, []] => (digitsVal ip).map (fun n => ⟨(n : Int), 0⟩)
    | [ip, fp] =>
      match digitsVal ip, fracVal fp with
      | some n, some p => some ⟨(n : Int) * (10 : Int) ^ p.2 + (p.1 : Int), p.2⟩
      | _, _ => none
    | _ => none

/-- Python `float(s)` restricted to the decimal forms these payloads use:
optional sign, digits, optional fractional part. -/
def pyFloat? (s : String) : Option Flt :=
  match trimChars s.toList with
  | [] => none
  | '-' :: ds => (pyFloatCore ds).map (fun f => ⟨-f.num, f.exp10⟩)
  | '+' :: ds => pyFloatCore ds
  | ds => pyFloatCore ds

/-- A calendar date, as produced by `datetime.strptime(s, '%Y-%m-%d').date()`. -/
structure Date where
  year : Nat
  month : Nat
  day : Nat
deriving DecidableEq

/-- `datetime.strptime(s, '%Y-%m-%d')`: three dash-separated all-digit
fields with the month in 1..12 and the day in 1..31, else `ValueError`. -/
def parseDate? (s : String) : Option Date :=
  match (splitChars '-' s.toList).map digitsVal with
  | [some y, some m, some d] =>
    if 1 ≤ m && m ≤ 12 && 1 ≤ d && d ≤ 31 then some ⟨y, m, d⟩ else none
  | _ => none

def pad2 (n : Nat) : String :=
  if n < 10 then String.mk ('0' :: (Nat.toDigits 10 n)) else String.mk (Nat.toDigits 10 n)

/-- `date.strftime('%Y-%m-%d')`. -/
def dateStr (d : Date) : String :=
  String.mk (Nat.toDigits 10 d.year) ++ "-" ++ pad2 d.month ++ "-" ++ pad2 d.day

/-! ## Data model (models.py) and the `post_save` calorie signal (signals.py) -/

/-- A stored Workout row (models.py 72-107): `id` is the primary key,
`userId` the owning identity. -/
structure WorkoutRec where
  id : Nat
  userId : Nat
  name : String
  workout_type : String
  date : Date
  duration : Int
  calories_burned : Int
  notes : String
deriving DecidableEq

/-- A stored Exercise row (models.py 127-173): `workoutId` is the foreign
key to its owning Workout. -/
structure ExerciseRec where
  id : Nat
  workoutId : Nat
  exercise_name : String
  category : String
  sets : Int
  reps : Int
  weight : Flt
  rest_time : Int
  notes : String
deriving DecidableEq

/-- The relational store: both tables in creation order (primary keys are
assigned from the `next` counters, so list order is `created_at` order,
which is what the Meta orderings of both models refine). -/
structure Store where
  workouts : List WorkoutRec
  exercises : List ExerciseRec
  nextW : Nat
  nextE : Nat
deriving DecidableEq

def Store.empty : Store := ⟨[], [], 0, 0⟩

def workoutCount (s : Store) : Nat := s.workouts.length

def exerciseCount (s : Store) : Nat := s.exercises.length

/-- Number of stored workouts with a given (identity, name, date) key. -/
def keyCount (s : Store) (userId : Nat) (name : String) (date : Date) : Nat :=
  (s.workouts.filter
    (fun w => w.userId = userId && w.name = name && w.date = date)).length

/-- Calorie rate table of `auto_calculate_calories` (signals.py 54-63):
`calorie_rates.get(workout_type, 5.0)`.  The Python rates are the floats
8.0/6.0/3.0/7.0/6.0/5.0; `int(duration * rate)` is exactly `duration * rate`
for these integral rates, so the table is embedded over `Int`. -/
def calorieRate (t : String) : Int :=
  if t = "cardio" then 8
  else if t = "strength" then 6
  else if t = "flexibility" then 3
  else if t = "sports" then 7
  else if t = "mixed" then 6
  else if t = "other" then 5
  else 5

/-- Net effect of the `post_save` receiver `auto_calculate_calories`
(signals.py 46-71) on the saved row: when `calories_burned == 0` the row is
updated (via `.update()`, which fires no further signal) to
`int(duration * rate)`; otherwise it is left alone. -/
def autoCalories (w : WorkoutRec) : WorkoutRec :=
  if w.calories_burned = 0 then
    { w with calories_burned := w.duration * calorieRate w.workout_type }
  else w

/-- `Workout.objects.create(...)`: inserts the row and fires `post_save`
with `created=True`, whose net effect is `autoCalories`.  Returns the store
and the stored row. -/
def createWorkout (s : Store) (userId : Nat) (name ty : String) (date : Date)
    (duration calories : Int) (notes : String) : Store × WorkoutRec :=
  let w := autoCalories ⟨s.nextW, userId, name, ty, date, duration, calories, notes⟩
  ({ s with workouts := s.workouts ++ [w], nextW := s.nextW + 1 }, w)

/-- `workout.save()` on an existing row after its fields were reassigned
(the overwrite branches of data_utils.py): replaces the row with the same
primary key and fires `post_save` with `created=False`, whose net effect is
again `autoCalories`. -/
def saveWorkout (s : Store) (w : WorkoutRec) : Store × WorkoutRec :=
  let w2 := autoCalories w
  ({ s with workouts := s.workouts.map (fun x => if x.id = w2.id then w2 else x) }, w2)

/-- `Workout.objects.filter(user=..., name=..., date=...).first()`
(data_utils.py 84-88): the Meta ordering is `['-date', '-created_at']` and
the date is fixed by the filter, so `.first()` is the most recently created
match — the last one in creation order. -/
def findWorkout? (s : Store) (userId : Nat) (name : String) (date : Date) :
    Option WorkoutRec :=
  (s.workouts.filter
    (fun w => w.userId = userId && w.name = name && w.date = date)).getLast?

/-- `Exercise.objects.create(workout=..., ...)`: a bare ORM insert.  Note
that `.create()` does NOT call `full_clean()`, so neither the field
validators nor `Exercise.clean` run on this path. -/
def createExercise (s : Store) (workoutId : Nat) (ename cat : String)
    (sets reps : Int) (weight : Flt) (rest : Int) (enotes : String) : Store :=
  { s with
    exercises :=
      s.exercises ++ [⟨s.nextE, workoutId, ename, cat, sets, reps, weight, rest, enotes⟩],
    nextE := s.nextE + 1 }

/-- `workout.exercises.all().delete()` (the overwrite branches of the JSON
and text importers). -/
def deleteExercises (s : Store) (workoutId : Nat) : Store :=
  { s with exercises := s.exercises.filter (fun e => !(e.workoutId = workoutId)) }

/-- `Exercise.clean` (models.py 178-182): rejects `weight > 0 and reps > 100`
with a ValidationError.  `true` means the record passes this check.  This
check runs only under `full_clean()` (e.g. from model forms), which none of
the import paths invoke. -/
def exerciseCleanOk (reps : Int) (weight : Flt) : Bool :=
  !(weight.isPos && 100 < reps)

/-! ## Delimited-text (CSV) importer: `import_csv_data` (data_utils.py 67-130)

`csv.DictReader` (Python stdlib, external to this code) deterministically
turns the payload into a sequence of header-keyed string dictionaries;
the importer is embedded over that sequence.  A dictionary is an association
list looked up by key. -/

abbrev Row : Type := List (String × String)

def kDate : String := "date"
def kName : String := "name"
def kType : String := "workout_type"
def kDuration : String := "duration"
def kCalories : String := "calories_burned"
def kNotes : String := "notes"
def kExName : String := "exercise_name"
def kCategory : String := "category"
def kSets : String := "sets"
def kReps : String := "reps"
def kWeight : String := "weight"
def kRest : String := "rest_time"
def kExNotes : String := "exercise_notes"
def sEmpty : String := ""
def sOther : String := "other"

/-- `row[k]` — `none` is a KeyError. -/
def rowGet? (r : Row) (k : String) : Option String :=
  (List.find? (fun p => p.1 = k) r).map (fun p => p.2)

/-- `row.get(k, d)` for a string default. -/
def rowGetD (r : Row) (k d : String) : String :=
  (rowGet? r k).getD d

/-- `int(row.get(k, d))` for an integer default `d`: when the key is absent
the Python default is already an int, so no parsing happens. -/
def rowGetInt? (r : Row) (k : String) (d : Int) : Option Int :=
  match rowGet? r k with
  | none => some d
  | some v => pyInt? v

/-- `float(row.get('weight', 0))`. -/
def rowGetFloat? (r : Row) (k : String) (d : Flt) : Option Flt :=
  match rowGet? r k with
  | none => some d
  | some v => pyFloat? v

/-- One iteration of the row loop of `import_csv_data` (data_utils.py
76-128), in the source's order: parse the date, look up an existing workout
(only when not overwriting — the guard on line 83), skip the whole row if
found and not overwriting, otherwise build `workout_data` (parsing duration
and calories), create the workout (the update branch on line 103 is
unreachable because `existing_workout` is only ever set when
`overwrite_existing` is false), then, if `exercise_name` is present and	
non-empty, parse and create the exercise.  Returns the store as left by the
row — including the commits made before a mid-row failure, since each ORM
`create` takes effect immediately — the two counter increments, and whether
the row raised (ValueError/KeyError, re-raised as ValidationError). -/
def processCsvRow (userId : Nat) (ow : Bool) (s : Store) (r : Row) :
    Store × Nat × Nat × Bool :=
  match rowGet? r kDate with
  | none => (s, 0, 0, true)
  | some ds =>
    match parseDate? ds with
    | none => (s, 0, 0, true)
    | some date =>
      match rowGet? r kName with
      | none => (s, 0, 0, true)
      | some name =>
        let existing := if !ow then findWorkout? s userId name date else none
        if existing.isSome && !ow then (s, 0, 0, false)
        else
          match rowGet? r kDuration with
          | none => (s, 0, 0, true)
          | some dus =>
            match pyInt? dus with
            | none => (s, 0, 0, true)
            | some duration =>
              match rowGetInt? r kCalories 0 with
              | none => (s, 0, 0, true)
              | some calories =>
                let ty := rowGetD r kType sOther
                let wnotes := rowGetD r kNotes sEmpty
                let created :=
                  match existing, ow with
                  | some ex, true =>
                    let s2w := saveWorkout s
                      { ex with
                        name := name, workout_type := ty, duration := duration,
                        calories_burned := calories, notes := wnotes, date := date }
                    (s2w.1, s2w.2, 0)
                  | _, _ =>
                    let s2w := createWorkout s userId name ty date duration calories wnotes
                    (s2w.1, s2w.2, 1)
                let s1 := created.1
                let w := created.2.1
                let dw := created.2.2
                match rowGet? r kExName with
                | none => (s1, dw, 0, false)
                | some en =>
                  if en = sEmpty then (s1, dw, 0, false)
                  else
                    match rowGetInt? r kSets 1, rowGetInt? r kReps 1,
                        rowGetFloat? r kWeight (Flt.ofInt 0), rowGetInt? r kRest 60 with
                    | some sets, some reps, some weight, some rest =>
                      (createExercise s1 w.id en (rowGetD r kCategory sOther)
                        sets reps weight rest (rowGetD r kExNotes sEmpty), dw, 1, false)
                    | _, _, _, _ => (s1, dw, 0, true)

/-- The row loop of `import_csv_data`: rows are processed in order, each
row's store effects persisting as they happen; the first raising row aborts
the loop with the partial store.  The final `false` component means the
function returned normally with its two counters. -/
def importCsvRaw (userId : Nat) (ow : Bool) :
    List Row → Store → Nat → Nat → Store × Nat × Nat × Bool
  | [], s, iw, ie => (s, iw, ie, false)
  | r :: rs, s, iw, ie =>
    match processCsvRow userId ow s r with
    | (s2, dw, de, true) => (s2, iw + dw, ie + de, true)
    | (s2, dw, de, false) => importCsvRaw userId ow rs s2 (iw + dw) (ie + de)

/-- Modelled from the spec: the commit scope of one import call.  The
importing functions write through the ORM row by row; whether those writes
survive a mid-call failure is decided by the transaction configuration
(Django settings), which is not part of src/.  Spec §5 states the Record
Store "provides atomic, isolated transactions scoped to one import call so
that a failure partway through a multi-record import leaves no partial
state", so on a raised error the store reverts to its pre-call state, and
on success the final state commits and the counters are returned. -/
def importCsv (userId : Nat) (rows : List Row) (ow : Bool) (s : Store) :
    Store × Option (Nat × Nat) :=
  match importCsvRaw userId ow rows s 0 0 with
  | (s2, iw, ie, false) => (s2, some (iw, ie))
  | (_, _, _, true) => (s, none)

/-! ## Hierarchical-document (JSON) importer and exporter
(data_utils.py 133-225 and 378-409)

`json.loads` (Python stdlib, external) deterministically turns the payload
into this value tree; numbers carry the exact decimal `Flt`, which is how
`json.dumps`/`json.loads` round-trip the repository's values. -/

inductive Json where
  | null
  | bool (b : Bool)
  | num (v : Flt)
  | str (s : String)
  | arr (xs : List Json)
  | obj (fields : List (String × Json))

def kWorkouts : String := "workouts"
def kExercises : String := "exercises"

/-- `d[k]` / `d.get(k)` on a parsed JSON object. -/
def jGet? (fields : List (String × Json)) (k : String) : Option Json :=
  (List.find? (fun p => p.1 = k) fields).map (fun p => p.2)

/-- A JSON value used where the code needs a string (workout/exercise names,
types, notes, the date before `strptime`).  A non-string here makes the
Python code fail further on (`strptime` TypeError, which the
`except (ValueError, KeyError)` does not catch but which still aborts the
operation) or store a non-string; the embedding uniformly treats it as the
operation failing. -/
def Json.asStr? : Json → Option String
  | Json.str s => some s
  | _ => none

/-- A JSON value used where the code stores an integer field. -/
def Json.asInt? : Json → Option Int
  | Json.num f => if f.exp10 = 0 then some f.num else none
  | _ => none

/-- A JSON value used for the float `weight` field (ints accepted, as in
`exercise_data.get('weight', 0)`). -/
def Json.asFlt? : Json → Option Flt
  | Json.num f => some f
  | _ => none

def jStr? (fields : List (String × Json)) (k : String) : Option String :=
  (jGet? fields k).bind Json.asStr?

/-- `d.get(k, dflt)` for a string field. -/
def jStrD? (fields : List (String × Json)) (k d : String) : Option String :=
  match jGet? fields k with
  | none => some d
  | some v => v.asStr?

/-- `d.get(k, dflt)` for an integer field. -/
def jIntD? (fields : List (String × Json)) (k : String) (d : Int) : Option Int :=
  match jGet? fields k with
  | none => some d
  | some v => v.asInt?

/-- One exercise entry of a workout's `"exercises"` list (data_utils.py
209-220): `exercise_name` is required (KeyError otherwise), the rest have
defaults.  Returns the store with the created exercise, or `none` when the
entry raises. -/
def processJsonExercise (s : Store) (workoutId : Nat) : Json → Option Store
  | Json.obj f =>
    match jStr? f kExName, jStrD? f kCategory sOther, jIntD? f kSets 1,
        jIntD? f kReps 1,
        (match jGet? f kWeight with
         | none => some (Flt.ofInt 0)
         | some v => v.asFlt?),
        jIntD? f kRest 60, jStrD? f kNotes sEmpty with
    | some en, some cat, some sets, some reps, some weight, some rest, some n2 =>
      some (createExercise s workoutId en cat sets reps weight rest n2)
    | _, _, _, _, _, _, _ => none
  | _ => none

/-- The exercise loop (data_utils.py 209-220): each entry commits as it is
created; the first raising entry aborts with the partial store. -/
def jsonExercisesLoop (workoutId : Nat) :
    List Json → Store → Nat → Store × Nat × Bool
  | [], s, ie => (s, ie, false)
  | e :: es, s, ie =>
    match processJsonExercise s workoutId e with
    | none => (s, ie, true)
    | some s2 => jsonExercisesLoop workoutId es s2 (ie + 1)

/-- One entry of the top-level `"workouts"` list (data_utils.py 169-223),
in source order: parse the required date, look up an existing workout (only
when not overwriting — the guard on line 176), skip the entry if found and
not overwriting, otherwise build `workout_fields` (required name and
duration, defaulted type/calories/notes) and create the workout — the
update-and-delete-exercises branch on lines 196-202 is unreachable because
`existing_workout` is only ever set when `overwrite_existing` is false —
then run the exercises loop. -/
def processJsonWorkout (userId : Nat) (ow : Bool) (s : Store) :
    Json → Store × Nat × Nat × Bool
  | Json.obj f =>
    match (jGet? f kDate).bind Json.asStr? with
    | none => (s, 0, 0, true)
    | some ds =>
      match parseDate? ds with
      | none => (s, 0, 0, true)
      | some date =>
        match jStr? f kName with
        | none => (s, 0, 0, true)
        | some name =>
          let existing := if !ow then findWorkout? s userId name date else none
          if existing.isSome && !ow then (s, 0, 0, false)
          else
            match jStrD? f kType sOther, (jGet? f kDuration).bind Json.asInt?,
                jIntD? f kCalories 0, jStrD? f kNotes sEmpty with
            | some ty, some duration, some calories, some wnotes =>
              let created :=
                match existing, ow with
                | some ex, true =>
                  let s2w := saveWorkout s
                    { ex with
                      name := name, workout_type := ty, duration := duration,
                      calories_burned := calories, notes := wnotes, date := date }
                  (deleteExercises s2w.1 s2w.2.id, s2w.2, 0)
                | _, _ =>
                  let s2w := createWorkout s userId name ty date duration calories wnotes
                  (s2w.1, s2w.2, 1)
              let exs :=
                match jGet? f kExercises with
                | none => some []
                | some (Json.arr l) => some l
                | some _ => none
              match exs with
              | none => (created.1, created.2.2, 0, true)
              | some l =>
                let r := jsonExercisesLoop created.2.1.id l created.1 0
                (r.1, created.2.2, r.2.1, r.2.2)
            | _, _, _, _ => (s, 0, 0, true)
  | _ => (s, 0, 0, true)

/-- The workout loop of `import_json_data`. -/
def importJsonRaw (userId : Nat) (ow : Bool) :
    List Json → Store → Nat → Nat → Store × Nat × Nat × Bool
  | [], s, iw, ie => (s, iw, ie, false)
  | w :: ws, s, iw, ie =>
    match processJsonWorkout userId ow s w with
    | (s2, dw, de, true) => (s2, iw + dw, ie + de, true)
    | (s2, dw, de, false) => importJsonRaw userId ow ws s2 (iw + dw) (ie + de)

/-- `import_json_data` on an already-parsed document (a payload that fails
`json.loads` raises before touching the store, which the transactional
wrapper below also covers): `data.get('workouts', [])`, then the workout
loop.  A document that is not an object, or whose `"workouts"` value is not
a list, makes the Python code raise on its first use of that value;
embedded as a failure with the store untouched. -/
def importJsonRawDoc (userId : Nat) (doc : Json) (ow : Bool) (s : Store) :
    Store × Nat × Nat × Bool :=
  match doc with
  | Json.obj fields =>
    match jGet? fields kWorkouts with
    | none => importJsonRaw userId ow [] s 0 0
    | some (Json.arr ws) => importJsonRaw userId ow ws s 0 0
    | some _ => (s, 0, 0, true)
  | _ => (s, 0, 0, true)

/-- Modelled from the spec: same per-call commit scope as `importCsv` —
the transaction configuration is not part of src/; spec §5 mandates that a
failed call leaves no partial state. -/
def importJson (userId : Nat) (doc : Json) (ow : Bool) (s : Store) :
    Store × Option (Nat × Nat) :=
  match importJsonRawDoc userId doc ow s with
  | (s2, iw, ie, false) => (s2, some (iw, ie))
  | (_, _, _, true) => (s, none)

/-- Ordering of `request.user.workouts.all()` under the model Meta
ordering `['-date', '-created_at']`: `a` is listed before `b` iff `a`'s
date is later, or the dates are equal and `a` was created later. -/
def wBefore (a b : WorkoutRec) : Bool :=
  if a.date.year ≠ b.date.year then b.date.year < a.date.year
  else if a.date.month ≠ b.date.month then b.date.month < a.date.month
  else if a.date.day ≠ b.date.day then b.date.day < a.date.day
  else b.id < a.id

def insertBefore (f : WorkoutRec → WorkoutRec → Bool) (x : WorkoutRec) :
    List WorkoutRec → List WorkoutRec
  | [] => [x]
  | y :: ys => if f x y then x :: y :: ys else y :: insertBefore f x ys

/-- The identity's workouts in the order the export views receive them. -/
def userWorkouts (s : Store) (userId : Nat) : List WorkoutRec :=
  (s.workouts.filter (fun w => w.userId = userId)).foldr (insertBefore wBefore) []

/-- `workout.exercises.all()` under Meta ordering `['created_at']`:
creation order, which is the store's list order. -/
def workoutExercises (s : Store) (workoutId : Nat) : List ExerciseRec :=
  s.exercises.filter (fun e => e.workoutId = workoutId)

def exerciseToJson (e : ExerciseRec) : Json :=
  Json.obj
    [(kExName, Json.str e.exercise_name),
     (kCategory, Json.str e.category),
     (kSets, Json.num (Flt.ofInt e.sets)),
     (kReps, Json.num (Flt.ofInt e.reps)),
     (kWeight, Json.num e.weight),
     (kRest, Json.num (Flt.ofInt e.rest_time)),
     (kNotes, Json.str e.notes)]

def workoutToJson (s : Store) (w : WorkoutRec) : Json :=
  Json.obj
    [(kName, Json.str w.name),
     (kDate, Json.str (dateStr w.date)),
     (kType, Json.str w.workout_type),
     (kDuration, Json.num (Flt.ofInt w.duration)),
     (kCalories, Json.num (Flt.ofInt w.calories_burned)),
     (kNotes, Json.str w.notes),
     (kExercises, Json.arr ((workoutExercises s w.id).map exerciseToJson))]

/-- `export_json_data` (data_utils.py 378-409): the document the endpoint
serialises for the identity's workouts. -/
def exportJsonDoc (s : Store) (userId : Nat) : Json :=
  Json.obj [(kWorkouts, Json.arr ((userWorkouts s userId).map (workoutToJson s)))]

/-! ## Structured-text importer: `import_text_data` (data_utils.py 228-327) -/

def mWorkout : String := "WORKOUT:"
def mExercise : String := "EXERCISE:"
def sHash : String := "#"

/-- Error kinds of the text importer.  The three explicit ValidationErrors
carry their messages; `badValue` stands for a ValueError from
`int`/`float`/`strptime` re-raised on line 325 — every one of them reports
the 1-based line number. -/
inductive TKind where
  | workoutParts
  | exerciseParts
  | orphanExercise
  | badValue
deriving DecidableEq

/-- The running state of the text importer's loop: the store, the two
counters, and `current_workout` (by primary key; `none` before the first
workout line). -/
structure TSt where
  store : Store
  iw : Nat
  ie : Nat
  cur : Option Nat
deriving DecidableEq

/-- One iteration of the line loop of `import_text_data` (data_utils.py
242-325) on the 1-based line number `i`, in source order.  Blank and
`#`-comment lines are skipped; a `WORKOUT:` line with fewer than 4
pipe-separated parts fails, otherwise its fields parse (ValueError fails
the line), the existing workout is looked up (only when not overwriting —
line 263), and on a skip `current_workout` is still pointed at the looked-up
workout (lines 270-272); the update branch (lines 284-290) is unreachable
for the same reason as in the other importers, so otherwise the workout is
created and counted.  An `EXERCISE:` line first checks there is an active
workout, then needs at least 4 parts, parses, creates, counts.  A line
starting with neither marker falls through both branches and is silently
skipped. -/
def processTextLine (userId : Nat) (ow : Bool) (st : TSt) (i : Nat)
    (line : String) : TSt × Option (Nat × TKind) :=
  let l := pyStrip line
  if l = sEmpty || pyStartsWith l sHash then (st, none)
  else if pyStartsWith l mWorkout then
    let parts := (pySplit (pyDrop l 8) '|').map pyStrip
    if parts.length < 4 then (st, some (i, TKind.workoutParts))
    else
      let name := parts.getD 0 sEmpty
      let ty := if parts.length > 1 then parts.getD 1 sEmpty else sOther
      match parseDate? (parts.getD 2 sEmpty) with
      | none => (st, some (i, TKind.badValue))
      | some date =>
        match pyInt? (parts.getD 3 sEmpty) with
        | none => (st, some (i, TKind.badValue))
        | some duration =>
          match (if parts.length > 4 then pyInt? (parts.getD 4 sEmpty) else some 0) with
          | none => (st, some (i, TKind.badValue))
          | some calories =>
            let wnotes := if parts.length > 5 then parts.getD 5 sEmpty else sEmpty
            let existing :=
              if !ow then findWorkout? st.store userId name date else none
            match existing with
            | some ex =>
              if !ow then ({ st with cur := some ex.id }, none)
              else
                let s2w := saveWorkout st.store
                  { ex with
                    name := name, workout_type := ty, duration := duration,
                    calories_burned := calories, notes := wnotes, date := date }
                ({ st with store := deleteExercises s2w.1 s2w.2.id,
                           cur := some s2w.2.id }, none)
            | none =>
              let s2w := createWorkout st.store userId name ty date duration
                calories wnotes
              ({ st with store := s2w.1, iw := st.iw + 1, cur := some s2w.2.id },
                none)
  else if pyStartsWith l mExercise then
    match st.cur with
    | none => (st, some (i, TKind.orphanExercise))
    | some wid =>
      let parts := (pySplit (pyDrop l 9) '|').map pyStrip
      if parts.length < 4 then (st, some (i, TKind.exerciseParts))
      else
        let en := parts.getD 0 sEmpty
        let cat := if parts.length > 1 then parts.getD 1 sEmpty else sOther
        match pyInt? (parts.getD 2 sEmpty) with
        | none => (st, some (i, TKind.badValue))
        | some sets =>
          match pyInt? (parts.getD 3 sEmpty) with
          | none => (st, some (i, TKind.badValue))
          | some reps =>
            match (if parts.length > 4 then pyFloat? (parts.getD 4 sEmpty)
                   else some (Flt.ofInt 0)) with
            | none => (st, some (i, TKind.badValue))
            | some weight =>
              match (if parts.length > 5 then pyInt? (parts.getD 5 sEmpty)
                     else some 60) with
              | none => (st, some (i, TKind.badValue))
              | some rest =>
                let enotes := if parts.length > 6 then parts.getD 6 sEmpty
                  else sEmpty
                ({ st with
                   store := createExercise st.store wid en cat sets reps weight
                     rest enotes,
                   ie := st.ie + 1 }, none)
  else (st, none)

/-- The line loop: `enumerate(lines, 1)` with the first raising line
aborting the run.  Effects made before the failure persist in the returned
state (they are rolled back only by the transactional wrapper below). -/
def runTextLines (userId : Nat) (ow : Bool) :
    List String → TSt → Nat → TSt × Option (Nat × TKind)
  | [], st, _ => (st, none)
  | l :: ls, st, i =>
    match processTextLine userId ow st i l with
    | (st2, none) => runTextLines userId ow ls st2 (i + 1)
    | (st2, some e) => (st2, some e)

/-- `import_text_data` before the commit decision:
`file_content.strip().split('\n')`, then the loop from line number 1 with
no active workout. -/
def importTextRaw (userId : Nat) (content : String) (ow : Bool) (s : Store) :
    TSt × Option (Nat × TKind) :=
  runTextLines userId ow (pySplit (pyStrip content) '\n') ⟨s, 0, 0, none⟩ 1

/-- Modelled from the spec: same per-call commit scope as `importCsv` —
spec §5 mandates that a failed call leaves no partial state. -/
def importText (userId : Nat) (content : String) (ow : Bool) (s : Store) :
    Store × Option (Nat × Nat) :=
  match importTextRaw userId content ow s with
  | (st, none) => (st.store, some (st.iw, st.ie))
  | (_, some _) => (s, none)

/-! ## Concrete fixtures used by the claim theorems -/

/-- A stored workout of identity 1: "Run" on 2024-01-01, cardio, 30 min,
300 kcal. -/
def wRun : WorkoutRec := ⟨0, 1, "Run", "cardio", ⟨2024, 1, 1⟩, 30, 300, ""⟩

/-- Its one exercise. -/
def eRunning : ExerciseRec := ⟨0, 0, "Running", "cardio", 1, 1, Flt.ofInt 0, 0, ""⟩

/-- A store holding exactly `wRun` with `eRunning`. -/
def storeRun : Store := ⟨[wRun], [eRunning], 1, 1⟩

/-- A CSV row with the same (name, date) key as `wRun`. -/
def rowRun : Row :=
  [(kDate, "2024-01-01"), (kName, "Run"), (kType, "cardio"), (kDuration, "30"),
   (kCalories, "300"), (kNotes, ""), (kExName, "Running"), (kCategory, "cardio"),
   (kSets, "1"), (kReps, "1"), (kWeight, "0"), (kRest, "0"), (kExNotes, "")]

def dRun : Date := ⟨2024, 1, 1⟩

def nRun : String := "Run"

/-- A CSV row whose exercise has reps=150 and weight=10. -/
def rowHighReps : Row :=
  [(kDate, "2024-01-02"), (kName, "Lift"), (kDuration, "30"),
   (kExName, "Press"), (kSets, "3"), (kReps, "150"), (kWeight, "10")]

/-- The same row with weight 0. -/
def rowHighRepsBw : Row :=
  [(kDate, "2024-01-02"), (kName, "Lift"), (kDuration, "30"),
   (kExName, "Press"), (kSets, "3"), (kReps, "150"), (kWeight, "0")]

/-! ## Claim theorems -/

/-- C1: the claim says an import with overwrite=true whose row key matches
an existing Workout updates that Workout in place, creates no second
Workout with the key and does not increment the counter.  The code violates
this: all three importers guard the lookup with
`if not overwrite_existing` (data_utils.py 83, 176, 263), so with
overwrite=true `existing_workout` is always `None`, the in-place update
branch is unreachable, and the importer creates a second Workout with the
same (identity, name, date) key and counts it.  Concretely: one matching
row against `storeRun` leaves two workouts with the key and reports
workouts_imported = 1. -/
theorem c1_overwrite_duplicates_instead_of_updating :
    keyCount storeRun 1 nRun dRun = 1 ∧
    (importCsv 1 [rowRun] true storeRun).2 = some (1, 1) ∧
    keyCount (importCsv 1 [rowRun] true storeRun).1 1 nRun dRun = 2 := by
  decide

/-- C3: the claim says an imported exercise with reps=150 and weight=10
fails the whole operation with a RangeError.  The rule does exist —
`Exercise.clean` (models.py 178-182) rejects weight>0 ∧ reps>100, here
`exerciseCleanOk` — but the import path creates exercises with
`Exercise.objects.create`, which never runs `full_clean`/`clean`, so
the operation succeeds and stores the record its own validator rejects.  The
weight=0 variant succeeds as claimed. -/
theorem c3_range_rule_not_enforced_on_import :
    exerciseCleanOk 150 (Flt.ofInt 10) = false ∧
    (importCsv 1 [rowHighReps] false Store.empty).2 = some (1, 1) ∧
    ((importCsv 1 [rowHighReps] false Store.empty).1.exercises.map
      (fun e => (e.reps, e.weight))) = [(150, Flt.ofInt 10)] ∧
    exerciseCleanOk 150 (Flt.ofInt 0) = true ∧
    (importCsv 1 [rowHighRepsBw] false Store.empty).2 = some (1, 1) := by
  decide

/-- C4: the claim says export-then-import with overwrite=true against the
same identity leaves the records unchanged.  Because of the dead overwrite
branch (see C1), re-importing the hierarchical-document export creates a
second copy of every workout instead of updating in place: from `storeRun`
(1 workout, 1 exercise) the round trip yields 2 workouts — records are
gained, refuting the claim. -/
theorem c4_json_roundtrip_duplicates_records :
    workoutCount storeRun = 1 ∧ exerciseCount storeRun = 1 ∧
    (importJson 1 (exportJsonDoc storeRun 1) true storeRun).2 = some (1, 1) ∧
    workoutCount (importJson 1 (exportJsonDoc storeRun 1) true storeRun).1 = 2 ∧
    keyCount (importJson 1 (exportJsonDoc storeRun 1) true storeRun).1 1 nRun dRun
      = 2 := by
  decide

/-- C9: every Workout created with calories_burned=0 is auto-filled by the
`post_save` signal to duration times the per-minute rate of its type
(cardio=8, strength=6, flexibility=3, sports=7, mixed=6, other=5), and a
non-zero calories value is kept; the stored row is exactly the returned
one. -/
theorem c9_calorie_autofill (s : Store) (u : Nat) (n ty : String) (d : Date)
    (dur c : Int) (no : String) (hc : c ≠ 0) :
    calorieRate ("cardio") = 8 ∧ calorieRate ("strength") = 6 ∧
    calorieRate ("flexibility") = 3 ∧ calorieRate ("sports") = 7 ∧
    calorieRate ("mixed") = 6 ∧ calorieRate ("other") = 5 ∧
    (createWorkout s u n ty d dur 0 no).2.calories_burned
      = dur * calorieRate ty ∧
    (createWorkout s u n ty d dur 0 no).1.workouts
      = s.workouts ++ [(createWorkout s u n ty d dur 0 no).2] ∧
    (createWorkout s u n ty d dur c no).2.calories_burned = c := by
  refine ⟨rfl, ?_, ?_, ?_, ?_, ?_, ?_, ?_, ?_⟩ <;>
    simp [calorieRate, createWorkout, autoCalories, hc]

/-- The C9 theorem at a concrete input: cardio for 30 minutes with
calories 0 ends up at 240; created with calories 300 it stays 300. -/
theorem c9_calorie_autofill_witness :
    (createWorkout Store.empty 1 nRun ("cardio") dRun 30 0 sEmpty).2.calories_burned
      = 30 * calorieRate ("cardio") ∧
    (createWorkout Store.empty 1 nRun ("cardio") dRun 30 300 sEmpty).2.calories_burned
      = 300 := by
  refine ⟨?_, ?_⟩
  · exact (c9_calorie_autofill Store.empty 1 nRun ("cardio") dRun 30 300 sEmpty
      (by decide)).2.2.2.2.2.2.1
  · exact (c9_calorie_autofill Store.empty 1 nRun ("cardio") dRun 30 300 sEmpty
      (by decide)).2.2.2.2.2.2.2.2

/-- C10: importing a hierarchical document that is an object with no
"workouts" key succeeds with zero counts and writes nothing:
`data.get('workouts', [])` yields the empty list and the loop body never
runs. -/
theorem c10_json_without_workouts_key_is_noop (u : Nat) (ow : Bool) (s : Store)
    (fields : List (String × Json)) (h : jGet? fields kWorkouts = none) :
    importJson u (Json.obj fields) ow s = (s, some (0, 0)) := by
  simp [importJson, importJsonRawDoc, importJsonRaw, h]

/-- The C10 theorem at the concrete empty object. -/
theorem c10_json_without_workouts_key_is_noop_witness :
    importJson 1 (Json.obj []) false storeRun = (storeRun, some (0, 0)) :=
  c10_json_without_workouts_key_is_noop 1 false storeRun [] rfl

def dsRun : String := "2024-01-01"
def sCardio : String := "cardio"
def s30 : String := "30"
def sSitups : String := "Situps"
def sCore : String := "core"
def sTwo : String := "2"
def sTen : String := "10"

/-- A text line whose exercise record precedes any workout line. -/
def badExLine : String := "EXERCISE: a | b | 1 | 1"

/-- C2: an import call that fails leaves the Record Store unchanged, for
all three formats.  The rollback itself is the spec-modelled transactional
commit scope of the `import...` wrappers (spec §5; the transaction
configuration is outside src/): the row loops themselves write as they go,
and the wrapper discards those writes on failure. -/
theorem c2_failed_import_leaves_store_unchanged (u : Nat) (rows : List Row)
    (doc : Json) (content : String) (ow : Bool) (s : Store) :
    ((importCsv u rows ow s).2 = none → (importCsv u rows ow s).1 = s) ∧
    ((importJson u doc ow s).2 = none → (importJson u doc ow s).1 = s) ∧
    ((importText u content ow s).2 = none → (importText u content ow s).1 = s) := by
  refine ⟨?_, ?_, ?_⟩
  · intro h
    rcases hr : importCsvRaw u ow rows s 0 0 with ⟨s2, iw, ie, b⟩
    cases b <;> simp [importCsv, hr] at h ⊢
  · intro h
    rcases hr : importJsonRawDoc u doc ow s with ⟨s2, iw, ie, b⟩
    cases b <;> simp [importJson, hr] at h ⊢
  · intro h
    rcases hr : importTextRaw u content ow s with ⟨st, e⟩
    cases e <;> simp [importText, hr] at h ⊢

/-- The C2 theorem at concrete failing inputs: a row with no columns
(KeyError on 'date'), a non-object document, and an exercise line before
any workout line. -/
theorem c2_failed_import_leaves_store_unchanged_witness :
    (importCsv 1 [([] : Row)] false storeRun).2 = none ∧
    (importCsv 1 [([] : Row)] false storeRun).1 = storeRun ∧
    (importJson 1 Json.null false storeRun).2 = none ∧
    (importJson 1 Json.null false storeRun).1 = storeRun ∧
    (importText 1 badExLine false storeRun).2 = none ∧
    (importText 1 badExLine false storeRun).1 = storeRun := by
  refine ⟨by decide, ?_, by decide, ?_, by decide, ?_⟩
  · exact (c2_failed_import_leaves_store_unchanged 1 [([] : Row)] Json.null
      badExLine false storeRun).1 (by decide)
  · exact (c2_failed_import_leaves_store_unchanged 1 [([] : Row)] Json.null
      badExLine false storeRun).2.1 (by decide)
  · exact (c2_failed_import_leaves_store_unchanged 1 [([] : Row)] Json.null
      badExLine false storeRun).2.2 (by decide)

/-- C6: a CSV row with overwrite=false whose (identity, name, date) key
matches an existing workout is skipped entirely: the store — hence the
matched workout's stored fields and its exercise set — is untouched, no
exercise is created, and neither counter increments. -/
theorem c6_csv_duplicate_row_skipped (u : Nat) (s : Store) (r : Row)
    (ds n : String) (d : Date) (w : WorkoutRec)
    (hd : rowGet? r kDate = some ds) (hpd : parseDate? ds = some d)
    (hn : rowGet? r kName = some n) (hf : findWorkout? s u n d = some w) :
    processCsvRow u false s r = (s, 0, 0, false) := by
  simp [processCsvRow, hd, hpd, hn, hf]

/-- The C6 theorem at a concrete input: `rowRun` against `storeRun`. -/
theorem c6_csv_duplicate_row_skipped_witness :
    processCsvRow 1 false storeRun rowRun = (storeRun, 0, 0, false) :=
  c6_csv_duplicate_row_skipped 1 storeRun rowRun dsRun nRun dRun wRun
    (by decide) (by decide) (by decide) (by decide)

/-- C7: in a structured-text import with overwrite=false, a workout line
matching an existing workout is skipped but still becomes the active
workout (data_utils.py 270-272), so a following valid exercise line creates
an exercise attached to that existing workout and increments
the imported-exercise counter, the workout counter staying 0. -/
theorem c7_text_skip_sets_active_workout (u : Nat) (s : Store)
    (lw le n t2 ds du : String) (d : Date) (dur : Int) (w : WorkoutRec)
    (en cat ss rs : String) (sets reps : Int)
    (hw1 : pyStrip lw ≠ sEmpty)
    (hw2 : pyStartsWith (pyStrip lw) sHash = false)
    (hw3 : pyStartsWith (pyStrip lw) mWorkout = true)
    (hw4 : (pySplit (pyDrop (pyStrip lw) 8) '|').map pyStrip = [n, t2, ds, du])
    (hw5 : parseDate? ds = some d) (hw6 : pyInt? du = some dur)
    (hw7 : findWorkout? s u n d = some w)
    (he1 : pyStrip le ≠ sEmpty)
    (he2 : pyStartsWith (pyStrip le) sHash = false)
    (he3 : pyStartsWith (pyStrip le) mWorkout = false)
    (he4 : pyStartsWith (pyStrip le) mExercise = true)
    (he5 : (pySplit (pyDrop (pyStrip le) 9) '|').map pyStrip = [en, cat, ss, rs])
    (he6 : pyInt? ss = some sets) (he7 : pyInt? rs = some reps) :
    runTextLines u false [lw, le] ⟨s, 0, 0, none⟩ 1
      = (⟨createExercise s w.id en cat sets reps (Flt.ofInt 0) 60 sEmpty,
          0, 1, some w.id⟩, none) := by
  simp [runTextLines, processTextLine, hw1, hw2, hw3, hw4, hw5, hw6, hw7,
    he1, he2, he3, he4, he5, he6, he7]

/-- The C7 theorem at a concrete input: against `storeRun`, the matching
workout line is skipped, and the exercise line attaches "Situps" to the
existing workout `wRun` (primary key 0) with the exercise counter at 1. -/
theorem c7_text_skip_sets_active_workout_witness :
    runTextLines 1 false
      [String.append (String.append mWorkout " Run | cardio | 2024-01-01 | ") s30,
       String.append (String.append mExercise " Situps | core | 2 | ") sTen]
      ⟨storeRun, 0, 0, none⟩ 1
      = (⟨createExercise storeRun 0 sSitups sCore 2 10 (Flt.ofInt 0) 60 sEmpty,
          0, 1, some 0⟩, none) :=
  c7_text_skip_sets_active_workout 1 storeRun
    (String.append (String.append mWorkout " Run | cardio | 2024-01-01 | ") s30)
    (String.append (String.append mExercise " Situps | core | 2 | ") sTen)
    nRun sCardio dsRun s30 dRun 30 wRun sSitups sCore sTwo sTen 2 10
    (by decide) (by decide) (by decide) (by decide) (by decide) (by decide)
    (by decide) (by decide) (by decide) (by decide) (by decide) (by decide)
    (by decide) (by decide)

/-- A non-blank, non-comment line that is neither a workout nor an
exercise record. -/
def junkLine : String := "just some garbage text"

/-- C8 counterexample: the claim says every malformed non-blank,
non-comment line fails the whole operation.  But a line starting with
neither `WORKOUT:` nor `EXERCISE:` falls through both branches of the loop
(data_utils.py 248, 295) and is silently ignored: importing it alone
succeeds with zero counts. -/
theorem c8_counterexample_junk_line_ignored :
    pyStrip junkLine ≠ sEmpty ∧
    pyStartsWith (pyStrip junkLine) sHash = false ∧
    pyStartsWith (pyStrip junkLine) mWorkout = false ∧
    pyStartsWith (pyStrip junkLine) mExercise = false ∧
    importText 1 junkLine false Store.empty = (Store.empty, some (0, 0)) := by
  decide

/-- Running the line loop over `pre ++ ls` first runs it over `pre`; if
that raises nothing, the loop continues over `ls` from the reached state,
with the line counter advanced by `pre.length`. -/
theorem runTextLines_append_ok (u : Nat) (ow : Bool) :
    ∀ (pre ls : List String) (st : TSt) (i : Nat) (st2 : TSt),
      runTextLines u ow pre st i = (st2, none) →
      runTextLines u ow (pre ++ ls) st i
        = runTextLines u ow ls st2 (i + pre.length) := by
  intro pre
  induction pre with
  | nil =>
    intro ls st i st2 h
    simp only [runTextLines, Prod.mk.injEq] at h
    obtain ⟨rfl, -⟩ := h
    simp
  | cons l pre ih =>
    intro ls st i st2 h
    rcases hp : processTextLine u ow st i l with ⟨st1, e⟩
    cases e with
    | some err => simp [runTextLines, hp] at h
    | none =>
      simp only [runTextLines, hp] at h
      rw [List.cons_append]
      simp only [runTextLines, hp]
      rw [ih ls st1 (i + 1) st2 h]
      congr 1
      simp only [List.length_cons]
      omega

/-- C8 as amended: a line that does start with the `WORKOUT:` marker but
has fewer than 4 pipe-separated fields fails the whole operation with an
error carrying that line's 1-based line number (provided the preceding
lines processed without error); whereas a non-blank, non-comment line
starting with neither marker is silently ignored (the counterexample
above). -/
theorem c8_malformed_workout_line_errors_with_line_number (u : Nat)
    (ow : Bool) (s : Store) (content : String) (pre rest : List String)
    (bad : String) (st2 : TSt)
    (hsplit : pySplit (pyStrip content) '\n' = pre ++ bad :: rest)
    (hpre : runTextLines u ow pre ⟨s, 0, 0, none⟩ 1 = (st2, none))
    (h1 : pyStrip bad ≠ sEmpty)
    (h2 : pyStartsWith (pyStrip bad) sHash = false)
    (h3 : pyStartsWith (pyStrip bad) mWorkout = true)
    (h4 : (pySplit (pyDrop (pyStrip bad) 8) '|').length < 4) :
    (importTextRaw u content ow s).2
      = some (pre.length + 1, TKind.workoutParts) ∧
    importText u content ow s = (s, none) := by
  have hstep : processTextLine u ow st2 (1 + pre.length) bad
      = (st2, some (1 + pre.length, TKind.workoutParts)) := by
    unfold processTextLine
    simp [h1, h2, h3, h4]
  have hrun : importTextRaw u content ow s
      = (st2, some (1 + pre.length, TKind.workoutParts)) := by
    unfold importTextRaw
    rw [hsplit, runTextLines_append_ok u ow pre (bad :: rest) _ 1 st2 hpre]
    simp only [runTextLines, hstep]
  rw [Nat.add_comm 1 pre.length] at hrun
  exact ⟨by rw [hrun], by simp [importText, hrun]⟩

def contentC8 : String := "# comment\nWORKOUT: only | two"

def badC8 : String := "WORKOUT: only | two"

def preC8 : List String := ["# comment"]

/-- The amended C8 theorem at a concrete input: a comment line followed by
a `WORKOUT:` line with only two fields fails the whole operation, reporting
line 2. -/
theorem c8_malformed_workout_line_errors_witness :
    (importTextRaw 1 contentC8 false Store.empty).2
      = some (2, TKind.workoutParts) ∧
    importText 1 contentC8 false Store.empty = (Store.empty, none) :=
  c8_malformed_workout_line_errors_with_line_number 1 false Store.empty
    contentC8 preC8 [] badC8 ⟨Store.empty, 0, 0, none⟩
    (by decide) (by decide) (by decide) (by decide) (by decide) (by decide)

/-! ## C5 development -/

/-- Whether the store holds a workout with the (identity, name, date) key. -/
def hasKey (s : Store) (u : Nat) (n : String) (d : Date) : Bool :=
  s.workouts.any (fun w => w.userId = u && w.name = n && w.date = d)

theorem autoCalories_userId (w : WorkoutRec) : (autoCalories w).userId = w.userId := by
  unfold autoCalories; split <;> rfl

theorem autoCalories_name (w : WorkoutRec) : (autoCalories w).name = w.name := by
  unfold autoCalories; split <;> rfl

theorem autoCalories_date (w : WorkoutRec) : (autoCalories w).date = w.date := by
  unfold autoCalories; split <;> rfl

/-- `getLast?` of a filtered list is `some` exactly when some element
satisfies the predicate. -/
theorem filter_getLast_isSome {α : Type} (p : α → Bool) (l : List α) :
    (l.filter p).getLast?.isSome = l.any p := by
  induction l with
  | nil => rfl
  | cons x xs ih =>
    rw [List.filter_cons, List.any_cons]
    by_cases h : p x = true
    · simp only [h, if_pos, Bool.true_or]
      simp [List.getLast?_isSome]
    · simp only [Bool.not_eq_true] at h
      rw [h, Bool.false_or, if_neg (by simp)]
      exact ih

/-- `.first()` on the key filter is `some` exactly when the key is held. -/
theorem findWorkout_isSome_eq_hasKey (s : Store) (u : Nat) (n : String) (d : Date) :
    (findWorkout? s u n d).isSome = hasKey s u n d := by
  unfold findWorkout? hasKey
  exact filter_getLast_isSome _ _

/-- Projection of an `if` on pairs, used to reduce the skip branch. -/
theorem fst_ite_store (c : Prop) [Decidable c] (a b2 : Store)
    (x y : Nat × Nat × Bool) :
    (if c then (a, x) else (b2, y)).1 = if c then a else b2 := by
  split <;> rfl

/-- A processed CSV row (overwrite=false) never removes a key from the
store: it only skips, creates workouts, or creates exercises. -/
theorem processCsvRow_hasKey_mono (u : Nat) (s : Store) (r : Row)
    (n2 : String) (d2 : Date) (h : hasKey s u n2 d2 = true) :
    hasKey (processCsvRow u false s r).1 u n2 d2 = true := by
  unfold processCsvRow
  repeat' split
  all_goals try exact h
  all_goals simp_all [hasKey, createWorkout, createExercise, List.any_append,
    fst_ite_store, ite_self]
  all_goals
    obtain ⟨x, hx, hpx⟩ := h
    exact ⟨x, by split <;> simp [hx], hpx⟩

/-- Fold-level key monotonicity for the CSV row loop (overwrite=false). -/
theorem importCsvRaw_hasKey_mono (u : Nat) :
    ∀ (rows : List Row) (s : Store) (iw ie : Nat) (n2 : String) (d2 : Date),
      hasKey s u n2 d2 = true →
      hasKey (importCsvRaw u false rows s iw ie).1 u n2 d2 = true := by
  intro rows
  induction rows with
  | nil => intro s iw ie n2 d2 h; simpa [importCsvRaw] using h
  | cons r rs ih =>
    intro s iw ie n2 d2 h
    rcases hp : processCsvRow u false s r with ⟨s1, dw, de, b⟩
    have h1 : hasKey s1 u n2 d2 = true := by
      have h2 := processCsvRow_hasKey_mono u s r n2 d2 h
      rwa [hp] at h2
    cases b with
    | true => simpa [importCsvRaw, hp] using h1
    | false =>
      simp only [importCsvRaw, hp]
      exact ih s1 (iw + dw) (ie + de) n2 d2 h1

/-- A CSV row that completes without raising leaves its own
(identity, name, date) key present in the resulting store (overwrite=false):
either the row was skipped because the key was already there, or the row
created a workout carrying the key. -/
theorem processCsvRow_ok_key (u : Nat) (s : Store) (r : Row)
    (s1 : Store) (dw de : Nat)
    (h : processCsvRow u false s r = (s1, dw, de, false)) :
    ∃ ds d n, rowGet? r kDate = some ds ∧ parseDate? ds = some d ∧
      rowGet? r kName = some n ∧ hasKey s1 u n d = true := by
  unfold processCsvRow at h
  cases hd : rowGet? r kDate with
  | none => simp only [hd] at h; simp at h
  | some ds =>
  simp only [hd] at h
  cases hpd : parseDate? ds with
  | none => simp only [hpd] at h; simp at h
  | some d =>
  simp only [hpd] at h
  cases hn : rowGet? r kName with
  | none => simp only [hn] at h; simp at h
  | some n =>
  simp only [hn, Bool.not_false, if_true, Bool.and_true] at h
  refine ⟨ds, d, n, rfl, hpd, rfl, ?_⟩
  cases hex : (findWorkout? s u n d).isSome with
  | true =>
    simp only [hex, if_true] at h
    obtain ⟨rfl, -⟩ : s = s1 ∧ (0 : Nat) = dw := by
      simpa using And.intro (congrArg (fun p => p.1) h)
        (congrArg (fun p => p.2.1) h)
    rw [← findWorkout_isSome_eq_hasKey]
    exact hex
  | false =>
    have hnone : findWorkout? s u n d = none := by
      cases hfw : findWorkout? s u n d with
      | none => rfl
      | some w => rw [hfw] at hex; simp at hex
    simp only [hex, hnone, Bool.false_eq_true, if_false] at h
    repeat' split at h
    all_goals simp only [Prod.mk.injEq, Bool.true_eq_false, and_false] at h
    all_goals try exact absurd ‹(none : Option WorkoutRec).isSome = true› (by simp)
    all_goals
      obtain ⟨rfl, -⟩ := h
      simp [hasKey, createWorkout, createExercise, List.any_append,
        autoCalories_userId, autoCalories_name, autoCalories_date]

/-- When the whole CSV row loop (overwrite=false) completes without
raising, every processed row's (identity, name, date) key is present in the
final store. -/
theorem importCsvRaw_ok_keys (u : Nat) :
    ∀ (rows : List Row) (s : Store) (iw ie : Nat) (s2 : Store) (iw2 ie2 : Nat),
      importCsvRaw u false rows s iw ie = (s2, iw2, ie2, false) →
      ∀ r ∈ rows, ∃ ds d n, rowGet? r kDate = some ds ∧ parseDate? ds = some d ∧
        rowGet? r kName = some n ∧ hasKey s2 u n d = true := by
  intro rows
  induction rows with
  | nil => intro s iw ie s2 iw2 ie2 h r hr; cases hr
  | cons r rs ih =>
    intro s iw ie s2 iw2 ie2 h r2 hr2
    rcases hp : processCsvRow u false s r with ⟨s1, dw, de, b⟩
    cases b with
    | true =>
      simp only [importCsvRaw, hp, Prod.mk.injEq, Bool.true_eq_false,
        and_false] at h
    | false =>
      simp only [importCsvRaw, hp] at h
      rcases List.mem_cons.mp hr2 with rfl | hmem
      · obtain ⟨ds, d, n, hd, hpd, hn, hk1⟩ :=
          processCsvRow_ok_key u s r2 s1 dw de hp
        refine ⟨ds, d, n, hd, hpd, hn, ?_⟩
        have h2 := importCsvRaw_hasKey_mono u rs s1 (iw + dw) (ie + de) n d hk1
        rw [h] at h2
        exact h2
      · exact ih s1 (iw + dw) (ie + de) s2 iw2 ie2 h r2 hmem

/-- When every row's key is already present, the CSV row loop
(overwrite=false) skips every row: no store change, no counter change, no
error. -/
theorem importCsvRaw_all_skip (u : Nat) :
    ∀ (rows : List Row) (s : Store) (iw ie : Nat),
      (∀ r ∈ rows, ∃ ds d n, rowGet? r kDate = some ds ∧
        parseDate? ds = some d ∧ rowGet? r kName = some n ∧
        hasKey s u n d = true) →
      importCsvRaw u false rows s iw ie = (s, iw, ie, false) := by
  intro rows
  induction rows with
  | nil => intro s iw ie _; rfl
  | cons r rs ih =>
    intro s iw ie hall
    obtain ⟨ds, d, n, hd, hpd, hn, hk⟩ := hall r (by simp)
    have hf : (findWorkout? s u n d).isSome = true := by
      rw [findWorkout_isSome_eq_hasKey]; exact hk
    obtain ⟨w, hw⟩ := Option.isSome_iff_exists.mp hf
    have hskip : processCsvRow u false s r = (s, 0, 0, false) := by
      simp [processCsvRow, hd, hpd, hn, hw]
    simp only [importCsvRaw, hskip]
    have h2 := ih s (iw + 0) (ie + 0) (fun r2 hr2 => hall r2 (by simp [hr2]))
    simpa using h2

/-- C5: importing the same CSV payload twice with overwrite=false leaves
the stored workout and exercise counts after the second call equal to the
counts after the first call: if the first call succeeded, every row's key
is then present, so the second call skips every row and changes nothing;
if the first call failed, its transaction committed nothing and the second
call fails identically. -/
theorem c5_csv_reimport_idempotent (u : Nat) (rows : List Row) (s : Store) :
    workoutCount (importCsv u rows false (importCsv u rows false s).1).1
      = workoutCount (importCsv u rows false s).1 ∧
    exerciseCount (importCsv u rows false (importCsv u rows false s).1).1
      = exerciseCount (importCsv u rows false s).1 := by
  rcases hr : importCsvRaw u false rows s 0 0 with ⟨s2, iw, ie, b⟩
  cases b with
  | true =>
    have h1 : importCsv u rows false s = (s, none) := by
      simp [importCsv, hr]
    rw [h1]
    simp [h1]
  | false =>
    have h1 : importCsv u rows false s = (s2, some (iw, ie)) := by
      simp [importCsv, hr]
    have hkeys := importCsvRaw_ok_keys u rows s 0 0 s2 iw ie hr
    have h2 : importCsvRaw u false rows s2 0 0 = (s2, 0, 0, false) :=
      importCsvRaw_all_skip u rows s2 0 0 hkeys
    have h3 : importCsv u rows false s2 = (s2, some (0, 0)) := by
      simp [importCsv, h2]
    rw [h1]
    simp [h3]
